import Mathlib

/-!
# taskcluster-proxy: the request dispatcher of `routes.go`

A shallow embedding of `Routes.signUrl` and `Routes.ServeHTTP`.

* Go strings are Lean strings; byte indexing goes through the UTF-8 encoding
  (`goBytes`), so `len` and `s[lo:hi]` count bytes as Go does.
* A Go `error` is the text of `err.Error()`.
* `http.Header` is an association list from key to value list; the order of the
  list stands for the order in which one `range` over the map visits the keys.
* The collaborators that `routes.go` only calls (temporary credentials, bewit
  minting, the service registry, request construction, request signing, the
  HTTP client, the proxy version) are the fields of `Env`.
* Every call to a collaborator, to `log.Printf` and to `fmt.Printf` is
  recorded, in order, in `St.calls`; what reaches the caller is `St.res`.
* A run-time panic before the handler has called anything (the slice of the
  path) is `Except.error`; a panic of `WriteHeader` after the upstream call is
  recorded in `St.panic`, next to the calls made before it.
-/

namespace TaskclusterProxy

/-! ## Go strings -/

/-- UTF-8 encoding of one code point: the bytes a Go string stores for it. -/
def utf8Bytes (c : Char) : List Nat :=
  let n := c.toNat
  if n < 0x80 then [n]
  else if n < 0x800 then [0xC0 + n / 0x40, 0x80 + n % 0x40]
  else if n < 0x10000 then
    [0xE0 + n / 0x1000, 0x80 + (n / 0x40) % 0x40, 0x80 + n % 0x40]
  else
    [0xF0 + n / 0x40000, 0x80 + (n / 0x1000) % 0x40, 0x80 + (n / 0x40) % 0x40,
      0x80 + n % 0x40]

/-- The bytes of a Go string. -/
def goBytes (s : String) : List Nat :=
  s.data.flatMap utf8Bytes

/-- Go's `len(s)`: the number of bytes. -/
def goLen (s : String) : Nat :=
  (goBytes s).length

/-- Go's slice expression `s[lo:hi]` on a string: the bytes from `lo` up to `hi`,
and a run-time panic (`none`) unless `lo ≤ hi ≤ len(s)`. -/
def goSlice (s : String) (lo hi : Nat) : Option (List Nat) :=
  if lo ≤ hi ∧ hi ≤ goLen s then some (((goBytes s).take hi).drop lo) else none

/-- Go's `unicode.IsSpace`. -/
def isSpace (c : Char) : Bool :=
  let n := c.toNat
  n == 0x09 || n == 0x0A || n == 0x0B || n == 0x0C || n == 0x0D || n == 0x20 ||
  n == 0x85 || n == 0xA0 || n == 0x1680 || (0x2000 ≤ n && n ≤ 0x200A) ||
  n == 0x2028 || n == 0x2029 || n == 0x202F || n == 0x205F || n == 0x3000

/-- Go's `strings.TrimSpace`: all leading and trailing white space removed. -/
def TrimSpace (s : String) : String :=
  ⟨((s.data.dropWhile isSpace).reverse.dropWhile isSpace).reverse⟩

/-! ## `http.Header` -/

/-- Go's `http.Header`, a `map[string][]string`. -/
abbrev Header := List (String × List String)

/-- The bytes `net/textproto` accepts in a header field name (RFC 7230 token). -/
def validHeaderFieldByte (c : Char) : Bool :=
  c.isAlphanum || [33, 35, 36, 37, 38, 39, 42, 43, 45, 46, 94, 95, 96, 124, 126].contains c.toNat

/-- The rewriting pass of `textproto.CanonicalMIMEHeaderKey`: upper case for the
first letter and for each letter after a hyphen, lower case for the others. -/
def canonicalLetters : Bool → List Char → List Char
  | _, [] => []
  | upper, c :: cs =>
    let d := if upper then c.toUpper else c.toLower
    d :: canonicalLetters (d == '-') cs

/-- Go's `textproto.CanonicalMIMEHeaderKey`: a key with a byte that is no valid
header field byte is returned unchanged. -/
def CanonicalMIMEHeaderKey (s : String) : String :=
  if s.data.all validHeaderFieldByte then ⟨canonicalLetters true s.data⟩ else s

namespace Header

/-- The map index expression `h[k]`. -/
def index (h : Header) (k : String) : Option (List String) :=
  h.lookup k

/-- The body of `textproto.MIMEHeader.Get` after canonicalisation: `h[k][0]`, or
`""` when `h[k]` is missing or empty. -/
def first (h : Header) (k : String) : String :=
  match h.index k with
  | some (v :: _) => v
  | _ => ""

/-- Go's `Header.Get`: the first value stored under the canonical form of `key`,
or `""`. -/
def Get (h : Header) (key : String) : String :=
  h.first (CanonicalMIMEHeaderKey key)

/-- Go's `Header.Set`: the canonical form of `key` is bound to the single value
`value`, replacing whatever was bound to it. -/
def Set (h : Header) (key value : String) : Header :=
  (CanonicalMIMEHeaderKey key, [value]) ::
    h.filter (fun e => e.1 != CanonicalMIMEHeaderKey key)

end Header

/-- The loop `for key, _ := range src { if skip key { continue }; dst.Set(key, src.Get(key)) }`
that `ServeHTTP` runs once over the inbound request headers and once over the
backend response headers. -/
def rangeSet (skip : String → Bool) (src dst : Header) : Header :=
  src.foldl (fun acc e => if skip e.1 then acc else acc.Set e.1 (src.Get e.1)) dst

/-! ## Data -/

/-- The fields of `tcclient.Credentials` that `routes.go` reads or writes. -/
structure Credentials where
  ClientId : String
  AccessToken : String
  Certificate : String
  deriving DecidableEq, Repr

/-- The struct `Routes`. -/
structure Routes where
  ClientId : String
  AccessToken : String
  Certificate : String
  Scopes : List String
  deriving DecidableEq, Repr

/-- A `*url.URL`, seen through the two things `routes.go` asks of it: the field
`Path` and the result of `String()`. -/
structure URL where
  Path : String
  String : String
  deriving DecidableEq, Repr

/-- An `io.ReadCloser` body: the bytes that can be read from it and the error,
if any, that reading it to the end reports. -/
structure Body where
  data : String
  err : Option String
  deriving DecidableEq, Repr

/-- An `*http.Request`. -/
structure Request where
  Method : String
  URL : URL
  Header : Header
  Body : Body
  deriving DecidableEq, Repr

/-- An `*http.Response`. -/
structure Response where
  StatusCode : Nat
  Header : Header
  Body : Body
  deriving DecidableEq, Repr

/-- Go's `time.Hour`, a `Duration` in nanoseconds. -/
def Hour : Int := 3600000000000

/-- Go's `ioutil.ReadAll`. -/
def ReadAll (b : Body) : Except String String :=
  match b.err with
  | some e => .error e
  | none => .ok b.data

/-- One recorded call. -/
inductive Call where
  | CreateTemporaryCredentials (creds : Credentials) (ttl : Int) (scopes : List String)
  | ReadAll (b : Body)
  | Bewit (clientId accessToken certificate url : String)
  | ConvertPath (u : URL)
  | NewRequest (method url : String)
  | AuthorizationDelegate (clientId accessToken certificate : String)
      (scopes : List String) (req : Request)
  | Do (req : Request)
  | logPrintf (msg : String)
  | fmtPrintf (msg : String)
  deriving DecidableEq, Repr

/-- An `http.ResponseWriter`: the header map handed out by `Header()`, the status
line and header snapshot fixed by the first `WriteHeader`, and the body bytes
written so far. -/
structure ResponseWriter where
  header : Header
  sent : Option (Nat × Header)
  body : String
  deriving DecidableEq, Repr

/-- Go's `checkWriteHeaderCode`: `WriteHeader` accepts the codes from 100 to 999
and panics on every other one. -/
def checkWriteHeaderCode (code : Nat) : Bool :=
  decide (100 ≤ code) && decide (code ≤ 999)

namespace ResponseWriter

/-- The writer the server hands to a handler. -/
def fresh : ResponseWriter :=
  { header := [], sent := none, body := "" }

/-- What a call of `WriteHeader` does when it does not panic: the first call
fixes status and headers, later ones are ignored. -/
def writeStatus (w : ResponseWriter) (code : Nat) : ResponseWriter :=
  match w.sent with
  | some _ => w
  | none => { w with sent := some (code, w.header) }

/-- Go's `WriteHeader`: ignored once a status was written; otherwise a panic for
a code that fails `checkWriteHeaderCode`, and `writeStatus` for one that
passes. -/
def WriteHeader (w : ResponseWriter) (code : Nat) : Except String ResponseWriter :=
  match w.sent with
  | some _ => .ok w
  | none =>
    if checkWriteHeaderCode code then .ok (w.writeStatus code)
    else .error ("invalid WriteHeader code " ++ toString code)

/-- Go's `Write`: sends status 200 first when no status was written. -/
def Write (w : ResponseWriter) (s : String) : ResponseWriter :=
  let w1 := w.writeStatus 200
  { w1 with body := w1.body ++ s }

/-- The status code that reached the caller. -/
def status (w : ResponseWriter) : Option Nat :=
  w.sent.map Prod.fst

/-- The headers that reached the caller. -/
def sentHeader (w : ResponseWriter) : Header :=
  match w.sent with
  | some p => p.2
  | none => []

end ResponseWriter

/-- What a handler leaves behind: the response writer, the calls it made and,
when `WriteHeader` panicked after those calls, the text of that panic. -/
structure St where
  res : ResponseWriter
  calls : List Call
  panic : Option String := none
  deriving DecidableEq, Repr

/-- The collaborators of `routes.go`. -/
structure Env where
  /-- The method `creds.CreateTemporaryCredentials(duration, scopes...)`. -/
  CreateTemporaryCredentials : Credentials → Int → List String → Except String Credentials
  /-- The function `tc.Bewit(clientId, accessToken, certificate, url)`. -/
  Bewit : String → String → String → String → Except String String
  /-- The method `tcServices.ConvertPath(url)`. -/
  ConvertPath : URL → Except String URL
  /-- The URL of the request `http.NewRequest(method, url, body)` builds, or its error. -/
  NewRequest : String → String → Except String URL
  /-- The function `tc.AuthorizationDelegate(clientId, accessToken, certificate, scopes, req)`. -/
  AuthorizationDelegate : String → String → String → List String → Request → Except String String
  /-- The method `httpClient.Do(req)`. -/
  Do : Request → Except String Response
  /-- The text `fmt.Fprintf(w, format)` writes for a format with no operands. -/
  Sprintf : String → String
  /-- The package variable `version`. -/
  version : String

/-! ## The handlers -/

/-- The message of the 403 branch of `signUrl`. -/
def forbiddenMessage : String :=
  "This worker type runs its taskcluster proxy server with temporary credentials, and therefore forbids bewit requests, since it cannot sign a request valid only for the task's scopes - consider using a different worker type which has permanent credentials for the taskcluster proxy. Such a proxy can generate temporary credentials with restricted scopes and use this for hawk bewit signing."

/-- The method `Routes.signUrl`. The two calls written `fmt.Printf(res, ...)` in
the source go to standard output and are recorded as `Call.fmtPrintf`; the
calls written `fmt.Fprintf(res, ...)` write to the response. The status codes
written here are the constants 303, 403 and 500, which pass
`checkWriteHeaderCode`, so each `res.WriteHeader(c)` is `writeStatus c`. -/
def Routes.signUrl (self : Routes) (env : Env) (res : ResponseWriter) (req : Request) : St :=
  if self.Certificate ≠ "" then
    { res := res.writeStatus 403, calls := [.fmtPrintf forbiddenMessage] }
  else
    let creds : Credentials :=
      { ClientId := self.ClientId, AccessToken := self.AccessToken, Certificate := "" }
    let c1 := Call.CreateTemporaryCredentials creds (Hour * 1) self.Scopes
    match env.CreateTemporaryCredentials creds (Hour * 1) self.Scopes with
    | .error _ =>
      { res := res.writeStatus 500,
        calls := [c1, .fmtPrintf "Could not create temp credentials - no way to proceed"] }
    | .ok tempCreds =>
      match ReadAll req.Body with
      | .error _ =>
        { res := (res.writeStatus 500).Write "Error reading body",
          calls := [c1, .ReadAll req.Body] }
      | .ok body =>
        let urlString := TrimSpace body
        let c3 := Call.Bewit tempCreds.ClientId tempCreds.AccessToken tempCreds.Certificate urlString
        match env.Bewit tempCreds.ClientId tempCreds.AccessToken tempCreds.Certificate urlString with
        | .error _ =>
          { res := (res.writeStatus 500).Write "Error creating bewit url",
            calls := [c1, .ReadAll req.Body, c3] }
        | .ok bewitUrl =>
          let res1 : ResponseWriter := { res with header := res.header.Set "Location" bewitUrl }
          { res := (res1.writeStatus 303).Write (env.Sprintf bewitUrl),
            calls := [c1, .ReadAll req.Body, c3] }

/-- The test `key == "Connection" || key == "Host"` of the request header loop. -/
def skipRequestKey (key : String) : Bool :=
  key == "Connection" || key == "Host"

/-- The method `Routes.ServeHTTP`. The constants 404 and 500 pass
`checkWriteHeaderCode`, so `res.WriteHeader(c)` is `writeStatus c` for them; the
status code of the backend response goes through `WriteHeader` itself, which
panics when the code is not one from 100 to 999; that panic comes after the
upstream call, so the outcome keeps the calls made, leaves the response
unwritten and records the panic in `St.panic`. -/
def Routes.ServeHTTP (self : Routes) (env : Env) (res : ResponseWriter) (req : Request) :
    Except String St :=
  match goSlice req.URL.Path 0 6 with
  | none => .error "runtime error: slice bounds out of range"
  | some head =>
    if head = goBytes "/bewit" then .ok (self.signUrl env res req)
    else
      let c1 := Call.ConvertPath req.URL
      match env.ConvertPath req.URL with
      | .error err =>
        .ok { res := (res.writeStatus 404).Write ("Unkown taskcluster service: " ++ err),
              calls := [c1, .logPrintf ("Attempting to use unkown service " ++ req.URL.String)] }
      | .ok targetPath =>
        let c2 := Call.logPrintf
          ("Proxying " ++ req.URL.String ++ " | " ++ req.Method ++ " | " ++ targetPath.String)
        let c3 := Call.NewRequest req.Method targetPath.String
        match env.NewRequest req.Method targetPath.String with
        | .error err =>
          .ok { res := (res.writeStatus 500).Write ("Failed to generate proxy request: " ++ err),
                calls := [c1, c2, c3] }
        | .ok u =>
          let proxyReq : Request :=
            { Method := req.Method, URL := u,
              Header := rangeSet skipRequestKey req.Header [], Body := req.Body }
          let c4 := Call.AuthorizationDelegate self.ClientId self.AccessToken self.Certificate
            self.Scopes proxyReq
          match env.AuthorizationDelegate self.ClientId self.AccessToken self.Certificate
              self.Scopes proxyReq with
          | .error _ =>
            .ok { res := (res.writeStatus 500).Write "Failed to sign proxy request",
                  calls := [c1, c2, c3, c4] }
          | .ok auth =>
            let signedReq : Request :=
              { proxyReq with Header := proxyReq.Header.Set "Authorization" auth }
            match env.Do signedReq with
            | .error err =>
              .ok { res := (res.writeStatus 500).Write ("Failed during proxy request: " ++ err),
                    calls := [c1, c2, c3, c4, .Do signedReq] }
            | .ok proxyResp =>
              let h1 := rangeSet (fun _ => false) proxyResp.Header res.header
              let h2 := h1.Set "X-Taskcluster-Endpoint" targetPath.String
              let h3 := h2.Set "X-Taskcluster-Proxy-Version" env.version
              let res1 : ResponseWriter := { res with header := h3 }
              match res1.WriteHeader proxyResp.StatusCode with
              | .error msg =>
                .ok { res := res1, calls := [c1, c2, c3, c4, .Do signedReq], panic := some msg }
              | .ok res2 =>
                .ok { res := res2.Write proxyResp.Body.data,
                      calls := [c1, c2, c3, c4, .Do signedReq] }

/-- The requests handed to `httpClient.Do`, in order. -/
def issued : List Call → List Request
  | [] => []
  | .Do q :: cs => q :: issued cs
  | _ :: cs => issued cs

/-! ## A concrete deployment, for the instances below -/

/-- The characters of a URL text after scheme and host. -/
def samplePath (cs : List Char) : List Char :=
  ((cs.dropWhile (fun c => c != '/')).drop 2).dropWhile (fun c => c != '/')

/-- A registry with the single service `queue` at `https://queue.example/v1`:
the first path segment is the service name, the rest of the path is appended
to the base URL, and an unknown name is an error that names it. -/
def sampleConvertPath (u : URL) : Except String URL :=
  let name := (u.Path.data.drop 1).takeWhile (fun c => c != '/')
  let rest := (u.Path.data.drop 1).dropWhile (fun c => c != '/')
  if name = "queue".data then
    .ok { Path := "/v1" ++ ⟨rest⟩, String := "https://queue.example/v1" ++ ⟨rest⟩ }
  else .error ("no service named " ++ ⟨name⟩)

/-- A backend that answers every request but the one to `/v1/down`; its answer
to `/v1/malformed` has the status line `HTTP/1.1 099`. -/
def sampleDo (q : Request) : Except String Response :=
  if q.URL.Path = "/v1/down" then .error "connection refused"
  else if q.URL.Path = "/v1/malformed" then
    .ok { StatusCode := 99, Header := [], Body := { data := "", err := none } }
  else
    .ok { StatusCode := 201,
          Header := [("Content-Type", ["application/json"]), ("Set-Cookie", ["a=1", "b=2"]),
                     ("X-Taskcluster-Endpoint", ["https://elsewhere.example"])],
          Body := { data := "ok", err := none } }

/-- A deployment with simple stand-ins for the collaborators. -/
def sampleEnv : Env where
  CreateTemporaryCredentials creds _ scopes :=
    if creds.AccessToken = "" then .error "no access token"
    else .ok { ClientId := creds.ClientId, AccessToken := "temp-" ++ creds.AccessToken,
               Certificate := "cert:" ++ ",".intercalate scopes }
  Bewit clientId _ _ url :=
    if url = "" then .error "empty url" else .ok (url ++ "?bewit=" ++ clientId)
  ConvertPath := sampleConvertPath
  NewRequest method url :=
    if method = "" then .error "empty method" else .ok { Path := ⟨samplePath url.data⟩, String := url }
  AuthorizationDelegate clientId accessToken _ _ _ :=
    if accessToken = "" then .error "no access token" else .ok ("Hawk id=" ++ clientId)
  Do := sampleDo
  Sprintf := id
  version := "1.0.0"

/-- The sample deployment with a derivation of temporary credentials that hands
back the credentials it was given. -/
def echoEnv : Env :=
  { sampleEnv with CreateTemporaryCredentials := fun creds _ _ => .ok creds }

/-- Permanent credentials. -/
def permanentRoutes : Routes :=
  { ClientId := "proxy", AccessToken := "secret", Certificate := "",
    Scopes := ["queue:get-artifact:*"] }

/-- Temporary credentials: the certificate is set. -/
def temporaryRoutes : Routes :=
  { ClientId := "proxy", AccessToken := "secret", Certificate := "certificate",
    Scopes := ["queue:get-artifact:*"] }

/-- Permanent credentials without an access token, which the sample signer rejects. -/
def tokenlessRoutes : Routes :=
  { ClientId := "proxy", AccessToken := "", Certificate := "", Scopes := [] }

/-- A request with the given method, path, headers and body text. -/
def sampleRequest (method path : String) (h : Header) (body : String) : Request :=
  { Method := method, URL := { Path := path, String := path }, Header := h,
    Body := { data := body, err := none } }

/-! ## Header lemmas -/

theorem lookup_filter_ne (h : Header) (k c : String) (hc : c ≠ k) :
    (h.filter (fun e => e.1 != k)).lookup c = h.lookup c := by
  induction h with
  | nil => rfl
  | cons e t ih =>
    obtain ⟨a, b⟩ := e
    by_cases hak : a = k
    · subst hak
      have h1 : (c == a) = false := by simpa using hc
      simp [List.filter_cons, List.lookup_cons, h1, ih]
    · have h1 : (a != k) = true := by simpa using hak
      simp only [List.filter_cons, h1, if_true, List.lookup_cons, ih]

theorem index_Set (h : Header) (k v c : String) :
    (h.Set k v).index c = if CanonicalMIMEHeaderKey k = c then some [v] else h.index c := by
  unfold Header.Set Header.index
  by_cases hc : CanonicalMIMEHeaderKey k = c
  · subst hc
    simp [List.lookup_cons]
  · have h1 : (c == CanonicalMIMEHeaderKey k) = false := by
      simpa using fun h2 => hc h2.symm
    rw [List.lookup_cons, h1, if_neg hc]
    exact lookup_filter_ne h _ c (fun h2 => hc h2.symm)

theorem Get_Set_same (h : Header) (k v : String) : (h.Set k v).Get k = v := by
  simp [Header.Get, Header.first, index_Set]

theorem Get_eq_of_index (h : Header) (k v : String)
    (hk : h.index (CanonicalMIMEHeaderKey k) = some [v]) : h.Get k = v := by
  simp [Header.Get, Header.first, hk]

/-- One step of the copying loop leaves a slot that already holds the first
source value as it is. -/
theorem foldSet_stable (skip : String → Bool) (src : Header) (c : String) (l : Header) :
    ∀ acc : Header, acc.index c = some [src.first c] →
      (l.foldl (fun acc e => if skip e.1 then acc else acc.Set e.1 (src.Get e.1)) acc).index c
        = some [src.first c] := by
  induction l with
  | nil => intro acc h; simpa using h
  | cons e t ih =>
    intro acc h
    rw [List.foldl_cons]
    apply ih
    by_cases hs : skip e.1 = true
    · simpa [hs] using h
    · simp only [hs, Bool.false_eq_true, if_false, index_Set]
      by_cases hc : CanonicalMIMEHeaderKey e.1 = c
      · simp [hc, Header.Get]
      · simpa [hc] using h

theorem foldSet_present (skip : String → Bool) (src : Header) (c : String) (l : Header)
    (e : String × List String) (he : e ∈ l) (hs : skip e.1 = false)
    (hc : CanonicalMIMEHeaderKey e.1 = c) :
    ∀ acc : Header,
      (l.foldl (fun acc e => if skip e.1 then acc else acc.Set e.1 (src.Get e.1)) acc).index c
        = some [src.first c] := by
  induction l with
  | nil => cases he
  | cons e0 t ih =>
    intro acc
    rw [List.foldl_cons]
    rcases List.mem_cons.mp he with h0 | ht
    · subst h0
      apply foldSet_stable
      simp [hs, index_Set, hc, Header.Get]
    · exact ih ht _

theorem foldSet_absent (skip : String → Bool) (src : Header) (c : String) (l : Header)
    (hl : ∀ e ∈ l, skip e.1 = true ∨ CanonicalMIMEHeaderKey e.1 ≠ c) :
    ∀ acc : Header,
      (l.foldl (fun acc e => if skip e.1 then acc else acc.Set e.1 (src.Get e.1)) acc).index c
        = acc.index c := by
  induction l with
  | nil => intro acc; rfl
  | cons e0 t ih =>
    intro acc
    rw [List.foldl_cons, ih (fun e he => hl e (List.mem_cons_of_mem _ he))]
    rcases hl e0 (List.mem_cons_self _ _) with h0 | h0
    · simp [h0]
    · by_cases hs : skip e0.1 = true
      · simp [hs]
      · simp [hs, index_Set, h0]

theorem index_rangeSet_present (skip : String → Bool) (src dst : Header) (c : String)
    (e : String × List String) (he : e ∈ src) (hs : skip e.1 = false)
    (hc : CanonicalMIMEHeaderKey e.1 = c) :
    (rangeSet skip src dst).index c = some [src.first c] :=
  foldSet_present skip src c src e he hs hc dst

theorem index_rangeSet_absent (skip : String → Bool) (src dst : Header) (c : String)
    (hl : ∀ e ∈ src, skip e.1 = true ∨ CanonicalMIMEHeaderKey e.1 ≠ c) :
    (rangeSet skip src dst).index c = dst.index c :=
  foldSet_absent skip src c src hl dst

theorem mem_of_index (h : Header) (k : String) (vs : List String)
    (hk : h.index k = some vs) : (k, vs) ∈ h := by
  induction h with
  | nil => simp [Header.index] at hk
  | cons e t ih =>
    obtain ⟨a, b⟩ := e
    unfold Header.index at hk ih
    rw [List.lookup_cons] at hk
    by_cases hka : k = a
    · subst hka
      simp at hk
      simp [hk]
    · have h1 : (k == a) = false := by simpa using hka
      rw [h1] at hk
      exact List.mem_cons_of_mem _ (ih hk)

/-! ## Lemmas on the handlers -/

theorem WriteHeader_of_valid (w : ResponseWriter) (code : Nat)
    (h : checkWriteHeaderCode code = true) : w.WriteHeader code = .ok (w.writeStatus code) := by
  unfold ResponseWriter.WriteHeader ResponseWriter.writeStatus
  cases w.sent <;> simp [h]

theorem WriteHeader_fresh_of_invalid (h : Header) (code : Nat)
    (hc : checkWriteHeaderCode code = false) :
    ResponseWriter.WriteHeader { ResponseWriter.fresh with header := h } code
      = .error ("invalid WriteHeader code " ++ toString code) := by
  simp [ResponseWriter.WriteHeader, ResponseWriter.fresh, hc]

theorem checkWriteHeaderCode_iff (code : Nat) :
    checkWriteHeaderCode code = true ↔ 100 ≤ code ∧ code ≤ 999 := by
  simp [checkWriteHeaderCode]

theorem signUrl_calls_no_Do (env : Env) (self : Routes) (res : ResponseWriter) (req : Request)
    (q : Request) : Call.Do q ∉ (self.signUrl env res req).calls := by
  simp only [Routes.signUrl]
  repeat' split
  all_goals simp

theorem signUrl_calls_no_NewRequest (env : Env) (self : Routes) (res : ResponseWriter)
    (req : Request) (m u : String) : Call.NewRequest m u ∉ (self.signUrl env res req).calls := by
  simp only [Routes.signUrl]
  repeat' split
  all_goals simp

theorem signUrl_calls_no_ConvertPath (env : Env) (self : Routes) (res : ResponseWriter)
    (req : Request) (u : URL) : Call.ConvertPath u ∉ (self.signUrl env res req).calls := by
  simp only [Routes.signUrl]
  repeat' split
  all_goals simp

/-- Inversion: a request handed to the HTTP client comes from the forwarding path. -/
theorem ServeHTTP_Do_inv (env : Env) (self : Routes) (res : ResponseWriter) (req : Request)
    (st : St) (q : Request) (hrun : self.ServeHTTP env res req = .ok st)
    (hq : Call.Do q ∈ st.calls) :
    ∃ head target u auth,
      goSlice req.URL.Path 0 6 = some head ∧ head ≠ goBytes "/bewit" ∧
      env.ConvertPath req.URL = .ok target ∧
      env.NewRequest req.Method target.String = .ok u ∧
      env.AuthorizationDelegate self.ClientId self.AccessToken self.Certificate self.Scopes
        ⟨req.Method, u, rangeSet skipRequestKey req.Header [], req.Body⟩ = .ok auth ∧
      q = ⟨req.Method, u, (rangeSet skipRequestKey req.Header []).Set "Authorization" auth,
            req.Body⟩ := by
  simp only [Routes.ServeHTTP] at hrun
  split at hrun
  · cases hrun
  · rename_i head hslice
    split at hrun
    · cases hrun
      exact absurd hq (signUrl_calls_no_Do env self res req q)
    · rename_i hne
      split at hrun
      · cases hrun
        simp at hq
      · rename_i target hconv
        split at hrun
        · cases hrun
          simp at hq
        · rename_i u hnew
          split at hrun
          · cases hrun
            simp at hq
          · rename_i auth hauth
            refine ⟨head, target, u, auth, hslice, hne, hconv, hnew, hauth, ?_⟩
            split at hrun
            · cases hrun
              simpa using hq
            · split at hrun
              · cases hrun
                simpa using hq
              · cases hrun
                simpa using hq

/-- The forwarding path, step by step: what `ServeHTTP` returns once the
registry, request construction, signing and the upstream call have answered. -/
theorem ServeHTTP_relayed (env : Env) (self : Routes) (res : ResponseWriter) (req : Request)
    (head : List Nat) (target u : URL) (auth : String) (resp : Response)
    (hslice : goSlice req.URL.Path 0 6 = some head) (hne : head ≠ goBytes "/bewit")
    (hconv : env.ConvertPath req.URL = .ok target)
    (hnew : env.NewRequest req.Method target.String = .ok u)
    (hauth : env.AuthorizationDelegate self.ClientId self.AccessToken self.Certificate
      self.Scopes ⟨req.Method, u, rangeSet skipRequestKey req.Header [], req.Body⟩ = .ok auth)
    (hdo : env.Do ⟨req.Method, u,
      (rangeSet skipRequestKey req.Header []).Set "Authorization" auth, req.Body⟩ = .ok resp)
    (hcode : checkWriteHeaderCode resp.StatusCode = true) :
    self.ServeHTTP env res req = .ok
      { res := (ResponseWriter.writeStatus
          { res with header :=
              (((rangeSet (fun _ => false) resp.Header res.header).Set
                "X-Taskcluster-Endpoint" target.String).Set
                "X-Taskcluster-Proxy-Version" env.version) } resp.StatusCode).Write resp.Body.data,
        calls := [.ConvertPath req.URL,
          .logPrintf ("Proxying " ++ req.URL.String ++ " | " ++ req.Method ++ " | " ++ target.String),
          .NewRequest req.Method target.String,
          .AuthorizationDelegate self.ClientId self.AccessToken self.Certificate self.Scopes
            ⟨req.Method, u, rangeSet skipRequestKey req.Header [], req.Body⟩,
          .Do ⟨req.Method, u,
            (rangeSet skipRequestKey req.Header []).Set "Authorization" auth, req.Body⟩] } := by
  simp only [Routes.ServeHTTP, hslice, hne, if_false, hconv, hnew, hauth, hdo,
    WriteHeader_of_valid _ _ hcode]

/-! ## Bytes and characters of a path -/

theorem utf8Bytes_ascii (c : Char) (h : c.toNat < 128) : utf8Bytes c = [c.toNat] := by
  simp [utf8Bytes, h]

theorem utf8Bytes_multibyte (c : Char) (h : ¬ c.toNat < 128) :
    ∃ b bs, utf8Bytes c = b :: bs ∧ 128 ≤ b := by
  unfold utf8Bytes
  simp only [h, if_false]
  split_ifs
  · exact ⟨_, _, rfl, by omega⟩
  · exact ⟨_, _, rfl, by omega⟩
  · exact ⟨_, _, rfl, by omega⟩

/-- The first `n` bytes of a text are the given ASCII bytes exactly when its
first `n` characters have those code points. -/
theorem take_bytes_ascii (n : Nat) : ∀ (cs : List Char) (bs : List Nat),
    (∀ b ∈ bs, b < 128) → bs.length = n →
    ((cs.flatMap utf8Bytes).take n = bs ↔ (cs.take n).map Char.toNat = bs) := by
  induction n with
  | zero =>
    intro cs bs _ hlen
    simp
  | succ n ih =>
    intro cs bs hb hlen
    cases bs with
    | nil => simp at hlen
    | cons b bs =>
      have hb0 : b < 128 := hb b (List.mem_cons_self _ _)
      have hbs : ∀ x ∈ bs, x < 128 := fun x hx => hb x (List.mem_cons_of_mem _ hx)
      have hl : bs.length = n := by simpa using hlen
      cases cs with
      | nil => simp
      | cons c cs =>
        by_cases hc : c.toNat < 128
        · simp only [List.flatMap_cons, utf8Bytes_ascii c hc, List.singleton_append,
            List.take_succ_cons, List.map_cons, List.cons.injEq]
          rw [ih cs bs hbs hl]
        · obtain ⟨b0, more, hmore, hb0ge⟩ := utf8Bytes_multibyte c hc
          simp only [List.flatMap_cons, hmore, List.cons_append, List.take_succ_cons,
            List.map_cons, List.cons.injEq]
          constructor
          · rintro ⟨h1, -⟩
            omega
          · rintro ⟨h1, -⟩
            omega

theorem map_toNat_injective (xs ys : List Char)
    (h : xs.map Char.toNat = ys.map Char.toNat) : xs = ys := by
  induction xs generalizing ys with
  | nil =>
    cases ys with
    | nil => rfl
    | cons y ys => simp at h
  | cons x xs ih =>
    cases ys with
    | nil => simp at h
    | cons y ys =>
      simp only [List.map_cons, List.cons.injEq] at h
      have hxy : x = y := Char.ext (UInt32.ext (by simpa [Char.toNat] using h.1))
      rw [hxy, ih ys h.2]

/-- The first six bytes of a path are the bytes of "/bewit" exactly when its
first six characters are. -/
theorem take_bytes_bewit (s : String) :
    (goBytes s).take 6 = goBytes "/bewit" ↔ s.data.take 6 = "/bewit".data := by
  have hb : goBytes "/bewit" = "/bewit".data.map Char.toNat := by decide
  rw [hb]
  unfold goBytes
  rw [take_bytes_ascii 6 s.data _ (by decide) (by decide)]
  constructor
  · intro h
    exact map_toNat_injective _ _ h
  · intro h
    rw [h]

theorem goSlice_of_len (s : String) (h : 6 ≤ goLen s) :
    goSlice s 0 6 = some ((goBytes s).take 6) := by
  simp [goSlice, h]

theorem goLen_of_take (s : String) (h : s.data.take 6 = "/bewit".data) : 6 ≤ goLen s := by
  have h1 := (take_bytes_bewit s).mpr h
  have h2 : ((goBytes s).take 6).length = 6 := by rw [h1]; decide
  rw [List.length_take] at h2
  unfold goLen
  omega

/-! ## `strings.TrimSpace` -/

theorem TrimSpace_surround (s : String) :
    ∃ l r : List Char, s.data = l ++ (TrimSpace s).data ++ r ∧
      (∀ c ∈ l, isSpace c = true) ∧ (∀ c ∈ r, isSpace c = true) := by
  refine ⟨s.data.takeWhile isSpace,
    (((s.data.dropWhile isSpace).reverse).takeWhile isSpace).reverse, ?_, ?_, ?_⟩
  · have h1 := List.takeWhile_append_dropWhile isSpace (s.data.dropWhile isSpace).reverse
    have h2 : s.data.dropWhile isSpace =
        ((s.data.dropWhile isSpace).reverse.dropWhile isSpace).reverse ++
          ((s.data.dropWhile isSpace).reverse.takeWhile isSpace).reverse := by
      rw [← List.reverse_append, h1, List.reverse_reverse]
    have h3 := List.takeWhile_append_dropWhile isSpace s.data
    simp only [TrimSpace, List.append_assoc]
    rw [← h2, h3]
  · intro c hc
    exact List.mem_takeWhile_imp hc
  · intro c hc
    exact List.mem_takeWhile_imp (List.mem_reverse.mp hc)

theorem TrimSpace_last (s : String) (c : Char)
    (hc : (TrimSpace s).data.getLast? = some c) : isSpace c = false := by
  simp only [TrimSpace, List.getLast?_reverse] at hc
  have h := List.head?_dropWhile_not isSpace (s.data.dropWhile isSpace).reverse
  rw [hc] at h
  simpa using h

theorem TrimSpace_head (s : String) (c : Char)
    (hc : (TrimSpace s).data.head? = some c) : isSpace c = false := by
  have h1 := List.takeWhile_append_dropWhile isSpace (s.data.dropWhile isSpace).reverse
  have h2 : s.data.dropWhile isSpace =
      (TrimSpace s).data ++ ((s.data.dropWhile isSpace).reverse.takeWhile isSpace).reverse := by
    simp only [TrimSpace]
    rw [← List.reverse_append, h1, List.reverse_reverse]
  have h3 : (s.data.dropWhile isSpace).head? = some c := by
    rw [h2, List.head?_append, hc]
    rfl
  have h := List.head?_dropWhile_not isSpace s.data
  rw [h3] at h
  simpa using h

/-! ## The claims -/

/-- C1: when the proxy's Certificate is non-empty, `signUrl` answers with status
403 for every scope list and every request: no temporary credentials are
derived, the bewit minter is not called, no Location header is set, and the
outcome is the same whatever the request (its body included). -/
theorem C1_signUrl_forbidden (env : Env) (self : Routes) (req : Request)
    (hcert : self.Certificate ≠ "") :
    (self.signUrl env .fresh req).res.status = some 403 ∧
    (∀ creds ttl scopes,
      Call.CreateTemporaryCredentials creds ttl scopes ∉ (self.signUrl env .fresh req).calls) ∧
    (∀ clientId accessToken certificate url,
      Call.Bewit clientId accessToken certificate url ∉ (self.signUrl env .fresh req).calls) ∧
    (self.signUrl env .fresh req).res.sentHeader = [] ∧
    (self.signUrl env .fresh req).res.header.index "Location" = none ∧
    (∀ req2 : Request, self.signUrl env .fresh req2 = self.signUrl env .fresh req) := by
  have h : ∀ r : Request, self.signUrl env .fresh r =
      { res := ResponseWriter.fresh.writeStatus 403, calls := [.fmtPrintf forbiddenMessage] } := by
    intro r
    simp only [Routes.signUrl, hcert, ne_eq, not_false_eq_true, if_true]
  rw [h req]
  refine ⟨rfl, ?_, ?_, rfl, rfl, fun r => h r⟩
  · intro creds ttl scopes
    simp
  · intro a b c d
    simp

/-- Instance of C1: the sample proxy on temporary credentials refuses a bewit request. -/
theorem C1_signUrl_forbidden_witness :
    temporaryRoutes.Certificate ≠ "" ∧
    (temporaryRoutes.signUrl sampleEnv .fresh
      (sampleRequest "POST" "/bewit" [] "https://queue.example/v1/task/ABC")).res.status
        = some 403 :=
  ⟨by decide, (C1_signUrl_forbidden sampleEnv temporaryRoutes _ (by decide)).1⟩

/-- C2 (amended): with an empty Certificate, when deriving temporary
credentials `t` (from the proxy's own ClientId and AccessToken, for one hour,
with exactly the configured Scopes), reading the body and minting the bewit all
succeed, `signUrl` answers 303 with the Location header set to the minted URL
`Bewit(t.ClientId, t.AccessToken, t.Certificate, TrimSpace body)`; these are the
only collaborator calls, the access token of every call to the minter is
`t.AccessToken`, the one of the derived credentials, and `TrimSpace` strips
exactly the white space around the body text. -/
theorem C2_signUrl_redirect (env : Env) (self : Routes) (req : Request) (t : Credentials)
    (u : String) (hcert : self.Certificate = "")
    (htemp : env.CreateTemporaryCredentials ⟨self.ClientId, self.AccessToken, ""⟩
      (3600 * 1000000000) self.Scopes = .ok t)
    (hread : req.Body.err = none)
    (hmint : env.Bewit t.ClientId t.AccessToken t.Certificate (TrimSpace req.Body.data) = .ok u) :
    (self.signUrl env .fresh req).res.status = some 303 ∧
    (self.signUrl env .fresh req).res.sentHeader.Get "Location" = u ∧
    (self.signUrl env .fresh req).res.sentHeader = [("Location", [u])] ∧
    (self.signUrl env .fresh req).calls =
      [.CreateTemporaryCredentials ⟨self.ClientId, self.AccessToken, ""⟩ (3600 * 1000000000)
          self.Scopes,
       .ReadAll req.Body,
       .Bewit t.ClientId t.AccessToken t.Certificate (TrimSpace req.Body.data)] ∧
    (∀ clientId accessToken certificate url,
      Call.Bewit clientId accessToken certificate url ∈ (self.signUrl env .fresh req).calls →
        clientId = t.ClientId ∧ accessToken = t.AccessToken ∧ certificate = t.Certificate ∧
        url = TrimSpace req.Body.data) ∧
    (∃ l r : List Char, req.Body.data.data = l ++ (TrimSpace req.Body.data).data ++ r ∧
      (∀ c ∈ l, isSpace c = true) ∧ (∀ c ∈ r, isSpace c = true)) ∧
    (∀ c, (TrimSpace req.Body.data).data.head? = some c → isSpace c = false) ∧
    (∀ c, (TrimSpace req.Body.data).data.getLast? = some c → isSpace c = false) := by
  have hhour : Hour * 1 = 3600 * 1000000000 := by decide
  have hra : ReadAll req.Body = .ok req.Body.data := by simp [ReadAll, hread]
  have h : self.signUrl env .fresh req =
      { res := (ResponseWriter.writeStatus
          { ResponseWriter.fresh with header := ResponseWriter.fresh.header.Set "Location" u }
          303).Write (env.Sprintf u),
        calls := [.CreateTemporaryCredentials ⟨self.ClientId, self.AccessToken, ""⟩
            (3600 * 1000000000) self.Scopes,
          .ReadAll req.Body,
          .Bewit t.ClientId t.AccessToken t.Certificate (TrimSpace req.Body.data)] } := by
    simp only [Routes.signUrl, hcert, ne_eq, not_true_eq_false, if_false, hhour, htemp, hra,
      hmint]
  rw [h]
  refine ⟨rfl, ?_, ?_, rfl, ?_, TrimSpace_surround _, TrimSpace_head _, TrimSpace_last _⟩
  · exact Get_Set_same _ _ _
  · have hk : CanonicalMIMEHeaderKey "Location" = "Location" := by decide
    simp [ResponseWriter.sentHeader, ResponseWriter.writeStatus, ResponseWriter.Write,
      ResponseWriter.fresh, Header.Set, hk]
  · intro a b c d hmem
    simpa using hmem

/-- Instance of C2 (scenario C of the specification): the sample proxy on
permanent credentials redirects to the bewit URL minted for the trimmed body. -/
theorem C2_signUrl_redirect_witness :
    (permanentRoutes.signUrl sampleEnv .fresh
      (sampleRequest "POST" "/bewit" [] "  https://queue.example/v1/task/ABC/artifacts/foo\n")
      ).res.sentHeader.Get "Location"
        = "https://queue.example/v1/task/ABC/artifacts/foo?bewit=proxy" :=
  (C2_signUrl_redirect sampleEnv permanentRoutes
    (sampleRequest "POST" "/bewit" [] "  https://queue.example/v1/task/ABC/artifacts/foo\n")
    ⟨"proxy", "temp-secret", "cert:queue:get-artifact:*"⟩
    "https://queue.example/v1/task/ABC/artifacts/foo?bewit=proxy"
    (by decide) (by rfl) (by rfl) (by rfl)).2.1

/-- C2 as stated fails: with a derivation of temporary credentials that hands
back the credentials it was given, every condition of the claim holds (empty
Certificate, derivation, body read and minting all succeed) and the access
token passed to the bewit minter is the permanent one. -/
theorem C2_counterexample :
    permanentRoutes.Certificate = "" ∧
    permanentRoutes.AccessToken = "secret" ∧
    echoEnv.CreateTemporaryCredentials ⟨"proxy", "secret", ""⟩ (3600 * 1000000000)
      ["queue:get-artifact:*"] = .ok ⟨"proxy", "secret", ""⟩ ∧
    (sampleRequest "POST" "/bewit" [] "https://queue.example/v1/task/ABC").Body.err = none ∧
    echoEnv.Bewit "proxy" "secret" "" "https://queue.example/v1/task/ABC"
      = .ok "https://queue.example/v1/task/ABC?bewit=proxy" ∧
    (permanentRoutes.signUrl echoEnv .fresh
      (sampleRequest "POST" "/bewit" [] "https://queue.example/v1/task/ABC")).res.status
        = some 303 ∧
    Call.Bewit "proxy" "secret" "" "https://queue.example/v1/task/ABC" ∈
      (permanentRoutes.signUrl echoEnv .fresh
        (sampleRequest "POST" "/bewit" [] "https://queue.example/v1/task/ABC")).calls :=
  ⟨rfl, rfl, rfl, rfl, rfl, by decide, by decide⟩

/-- C3 (amended): for a forwarded request whose header keys are in canonical
form (as `http.Header` asks of its keys), the outbound request has no Connection
and no Host header, every inbound header other than Connection, Host and
Authorization that carries exactly one value is present on the outbound request
with that value, and the outbound Authorization header is the signature the
proxy computed. -/
theorem C3_forwarded_headers (env : Env) (self : Routes) (req : Request) (st : St)
    (q : Request) (hrun : self.ServeHTTP env .fresh req = .ok st) (hq : Call.Do q ∈ st.calls)
    (hcanon : ∀ e ∈ req.Header, CanonicalMIMEHeaderKey e.1 = e.1) :
    q.Header.index "Connection" = none ∧ q.Header.index "Host" = none ∧
    (∀ k v, k ≠ "Connection" → k ≠ "Host" → k ≠ "Authorization" →
      req.Header.index k = some [v] → q.Header.index k = some [v]) ∧
    (∃ unsigned auth,
      env.AuthorizationDelegate self.ClientId self.AccessToken self.Certificate self.Scopes
        unsigned = .ok auth ∧
      q.Header.index "Authorization" = some [auth]) := by
  obtain ⟨head, target, u, auth, -, -, -, -, hauth, hqeq⟩ :=
    ServeHTTP_Do_inv env self .fresh req st q hrun hq
  subst hqeq
  have hA : CanonicalMIMEHeaderKey "Authorization" = "Authorization" := by decide
  have hskip : ∀ (c : String), (c = "Connection" ∨ c = "Host") →
      (rangeSet skipRequestKey req.Header []).index c = none := by
    intro c hc
    rw [index_rangeSet_absent]
    · rfl
    · intro e he
      by_cases h1 : skipRequestKey e.1 = true
      · exact Or.inl h1
      · right
        rw [hcanon e he]
        intro h2
        apply h1
        rcases hc with hc | hc <;> simp [skipRequestKey, h2, hc]
  refine ⟨?_, ?_, ?_, ⟨_, auth, hauth, ?_⟩⟩
  rotate_left 3
  · show Header.index (Header.Set _ _ _) _ = _
    rw [index_Set, hA, if_pos rfl]
  · show Header.index (Header.Set _ _ _) _ = _
    rw [index_Set, hA, if_neg (by decide)]
    exact hskip _ (Or.inl rfl)
  · show Header.index (Header.Set _ _ _) _ = _
    rw [index_Set, hA, if_neg (by decide)]
    exact hskip _ (Or.inr rfl)
  · intro k v hk1 hk2 hk3 hv
    show Header.index (Header.Set _ _ _) _ = _
    rw [index_Set, hA, if_neg (fun h => hk3 h.symm)]
    have hmem := mem_of_index req.Header k [v] hv
    rw [index_rangeSet_present skipRequestKey req.Header [] k (k, [v]) hmem
      (by simp [skipRequestKey, hk1, hk2]) (hcanon _ hmem)]
    simp [Header.first, hv]

/-- Instance of C3: a request with Accept, Connection and Authorization headers
is forwarded with Accept intact and without Connection. -/
theorem C3_forwarded_headers_witness :
    ∃ st q,
      permanentRoutes.ServeHTTP sampleEnv .fresh (sampleRequest "GET" "/queue/task/ABC"
        [("Accept", ["text/plain"]), ("Connection", ["close"]),
         ("Authorization", ["Bearer caller"])] "") = .ok st ∧
      Call.Do q ∈ st.calls ∧ q.Header.index "Connection" = none ∧
      q.Header.index "Accept" = some ["text/plain"] :=
  have h := C3_forwarded_headers sampleEnv permanentRoutes
    (sampleRequest "GET" "/queue/task/ABC"
      [("Accept", ["text/plain"]), ("Connection", ["close"]),
       ("Authorization", ["Bearer caller"])] "") _
    ⟨"GET", ⟨"/v1/task/ABC", "https://queue.example/v1/task/ABC"⟩,
      [("Authorization", ["Hawk id=proxy"]), ("Accept", ["text/plain"])], ⟨"", none⟩⟩
    rfl (by decide) (by decide)
  ⟨_, _, rfl, by decide, h.1, h.2.2.1 "Accept" "text/plain" (by decide) (by decide) (by decide)
    (by decide)⟩

/-- C3 as stated fails: the caller's Authorization header is not forwarded with
its inbound value (the proxy's own signature takes its place), and of a header
with two values only the first one is forwarded. -/
theorem C3_counterexample :
    ∃ st q,
      permanentRoutes.ServeHTTP sampleEnv .fresh (sampleRequest "GET" "/queue/task/ABC"
        [("Authorization", ["Bearer caller"]), ("Accept", ["text/html", "text/plain"])] "")
        = .ok st ∧
      Call.Do q ∈ st.calls ∧
      q.Header.index "Authorization" = some ["Hawk id=proxy"] ∧
      q.Header.index "Authorization" ≠ some ["Bearer caller"] ∧
      q.Header.index "Accept" = some ["text/html"] ∧
      q.Header.index "Accept" ≠ some ["text/html", "text/plain"] :=
  ⟨_, ⟨"GET", ⟨"/v1/task/ABC", "https://queue.example/v1/task/ABC"⟩,
      [("Authorization", ["Hawk id=proxy"]), ("Accept", ["text/html"])], ⟨"", none⟩⟩,
    rfl, by decide, by decide, by decide, by decide, by decide⟩

/-- C4 (amended): whenever the upstream call returns a response whose status
code is one from 100 to 999, the response written by `ServeHTTP` has the
backend's status code, its X-Taskcluster-Endpoint header is the resolved target
URL and its X-Taskcluster-Proxy-Version header is the proxy version, each as
the single value of its header, whatever headers the backend response carries;
`WriteHeader` does not panic. -/
theorem C4_relayed_status_and_diagnostics (env : Env) (self : Routes) (req : Request)
    (st : St) (q : Request) (resp : Response)
    (hrun : self.ServeHTTP env .fresh req = .ok st) (hq : Call.Do q ∈ st.calls)
    (hresp : env.Do q = .ok resp)
    (hcode : 100 ≤ resp.StatusCode ∧ resp.StatusCode ≤ 999) :
    ∃ target, env.ConvertPath req.URL = .ok target ∧
      st.panic = none ∧
      st.res.status = some resp.StatusCode ∧
      st.res.sentHeader.Get "X-Taskcluster-Endpoint" = target.String ∧
      st.res.sentHeader.index "X-Taskcluster-Endpoint" = some [target.String] ∧
      st.res.sentHeader.Get "X-Taskcluster-Proxy-Version" = env.version ∧
      st.res.sentHeader.index "X-Taskcluster-Proxy-Version" = some [env.version] := by
  obtain ⟨head, target, u, auth, hslice, hne, hconv, hnew, hauth, hqeq⟩ :=
    ServeHTTP_Do_inv env self .fresh req st q hrun hq
  subst hqeq
  have hst := ServeHTTP_relayed env self .fresh req head target u auth resp hslice hne hconv
    hnew hauth hresp ((checkWriteHeaderCode_iff _).mpr hcode)
  rw [hrun] at hst
  cases hst
  have hE : CanonicalMIMEHeaderKey "X-Taskcluster-Endpoint" = "X-Taskcluster-Endpoint" := by
    decide
  have hV : CanonicalMIMEHeaderKey "X-Taskcluster-Proxy-Version"
      = "X-Taskcluster-Proxy-Version" := by decide
  have h1 : ∀ h : Header, ((h.Set "X-Taskcluster-Endpoint" target.String).Set
      "X-Taskcluster-Proxy-Version" env.version).index "X-Taskcluster-Endpoint"
        = some [target.String] := by
    intro h
    rw [index_Set, hV, if_neg (by decide), index_Set, hE, if_pos rfl]
  have h2 : ∀ h : Header, ((h.Set "X-Taskcluster-Endpoint" target.String).Set
      "X-Taskcluster-Proxy-Version" env.version).index "X-Taskcluster-Proxy-Version"
        = some [env.version] := by
    intro h
    rw [index_Set, hV, if_pos rfl]
  refine ⟨target, hconv, rfl, rfl, ?_, h1 _, ?_, h2 _⟩
  · exact Get_eq_of_index _ _ _ (by rw [hE]; exact h1 _)
  · exact Get_eq_of_index _ _ _ (by rw [hV]; exact h2 _)

/-- Instance of C4: the sample backend answers 201 and sends its own
X-Taskcluster-Endpoint header; the relayed response has status 201 and names
the resolved target. -/
theorem C4_relayed_status_and_diagnostics_witness :
    ∃ st,
      permanentRoutes.ServeHTTP sampleEnv .fresh (sampleRequest "GET" "/queue/task/ABC" [] "")
        = .ok st ∧
      st.res.status = some 201 ∧
      st.res.sentHeader.Get "X-Taskcluster-Endpoint" = "https://queue.example/v1/task/ABC" :=
  have h := C4_relayed_status_and_diagnostics sampleEnv permanentRoutes
    (sampleRequest "GET" "/queue/task/ABC" [] "") _
    ⟨"GET", ⟨"/v1/task/ABC", "https://queue.example/v1/task/ABC"⟩,
      [("Authorization", ["Hawk id=proxy"])], ⟨"", none⟩⟩
    ⟨201, [("Content-Type", ["application/json"]), ("Set-Cookie", ["a=1", "b=2"]),
           ("X-Taskcluster-Endpoint", ["https://elsewhere.example"])], ⟨"ok", none⟩⟩
    rfl (by decide) rfl (by decide)
  match h with
  | ⟨_, hconv, _, hstatus, hget, _⟩ =>
    ⟨_, rfl, hstatus, hget.trans (congrArg URL.String (Except.ok.inj (hconv.symm.trans rfl)))⟩

/-- C4 as stated fails: the upstream call returns a response, its status line is
`HTTP/1.1 099`, and `WriteHeader(99)` panics, so no status code and no header
reach the caller. -/
theorem C4_counterexample :
    ∃ st q resp,
      permanentRoutes.ServeHTTP sampleEnv .fresh (sampleRequest "GET" "/queue/malformed" [] "")
        = .ok st ∧
      Call.Do q ∈ st.calls ∧ sampleEnv.Do q = .ok resp ∧ resp.StatusCode = 99 ∧
      st.panic = some "invalid WriteHeader code 99" ∧
      st.res.status = none ∧ st.res.sentHeader = [] ∧ st.res.body = "" :=
  ⟨_, ⟨"GET", ⟨"/v1/malformed", "https://queue.example/v1/malformed"⟩,
      [("Authorization", ["Hawk id=proxy"])], ⟨"", none⟩⟩, _, rfl, by decide, rfl, rfl,
    by decide, by decide, by decide, by decide⟩

/-- C5: when a request reaches registry resolution (its six-byte head is not
"/bewit") and `ConvertPath` fails with error `e`, `ServeHTTP` answers 404 with
the body "Unkown taskcluster service: " followed by the text of `e`, builds no
outbound request and issues no upstream call. -/
theorem C5_unknown_service (env : Env) (self : Routes) (req : Request) (head : List Nat)
    (e : String) (hslice : goSlice req.URL.Path 0 6 = some head)
    (hne : head ≠ goBytes "/bewit") (herr : env.ConvertPath req.URL = .error e) :
    ∃ st, self.ServeHTTP env .fresh req = .ok st ∧
      st.res.status = some 404 ∧
      st.res.body = "Unkown taskcluster service: " ++ e ∧
      (∃ l r : List Char, st.res.body.data = l ++ e.data ++ r) ∧
      (∀ method url, Call.NewRequest method url ∉ st.calls) ∧
      (∀ q, Call.Do q ∉ st.calls) := by
  have hrun : self.ServeHTTP env .fresh req = .ok
      { res := (ResponseWriter.fresh.writeStatus 404).Write ("Unkown taskcluster service: " ++ e),
        calls := [.ConvertPath req.URL,
          .logPrintf ("Attempting to use unkown service " ++ req.URL.String)] } := by
    simp only [Routes.ServeHTTP, hslice, hne, if_false, herr]
  refine ⟨_, hrun, rfl, ?_, ?_, ?_, ?_⟩
  · simp [ResponseWriter.Write, ResponseWriter.writeStatus, ResponseWriter.fresh]
  · refine ⟨"Unkown taskcluster service: ".data, [], ?_⟩
    simp [ResponseWriter.Write, ResponseWriter.writeStatus, ResponseWriter.fresh]
  · intro m u
    simp
  · intro q
    simp

/-- Instance of C5 (scenario B of the specification): `GET /bogus/v1/ping` is
answered 404 with a body that names the service `bogus`. -/
theorem C5_unknown_service_witness :
    ∃ st,
      permanentRoutes.ServeHTTP sampleEnv .fresh (sampleRequest "GET" "/bogus/v1/ping" [] "")
        = .ok st ∧
      st.res.status = some 404 ∧
      st.res.body = "Unkown taskcluster service: no service named bogus" :=
  match C5_unknown_service sampleEnv permanentRoutes
      (sampleRequest "GET" "/bogus/v1/ping" [] "") (goBytes "/bogus") "no service named bogus"
      (by decide) (by decide) rfl with
  | ⟨st, hrun, hstatus, hbody, _⟩ => ⟨st, hrun, hstatus, hbody⟩

/-- C6 at the failing inputs: on the two paths of `signUrl` whose message is sent
with `fmt.Printf`, the caller gets the status code and an empty body; the
message goes to standard output. -/
theorem C6_printf_paths_leave_body_empty :
    temporaryRoutes.ServeHTTP sampleEnv .fresh
        (sampleRequest "POST" "/bewit" [] "https://queue.example/v1/task/ABC") =
      .ok { res := { header := [], sent := some (403, []), body := "" },
            calls := [.fmtPrintf forbiddenMessage] } ∧
    tokenlessRoutes.ServeHTTP sampleEnv .fresh
        (sampleRequest "POST" "/bewit" [] "https://queue.example/v1/task/ABC") =
      .ok { res := { header := [], sent := some (500, []), body := "" },
            calls := [.CreateTemporaryCredentials ⟨"proxy", "", ""⟩ 3600000000000 [],
                      .fmtPrintf "Could not create temp credentials - no way to proceed"] } :=
  ⟨rfl, rfl⟩

/-- C7 (amended): `ServeHTTP` takes the bewit branch when the path begins with
the six bytes "/bewit": it then does what `signUrl` does, resolves nothing
through the registry, builds no outbound request and issues no upstream call.
A path of at least six bytes that does not begin with "/bewit" is resolved
through the registry, and nothing of the bewit branch is run. -/
theorem C7_bewit_branch (env : Env) (self : Routes) (req : Request) :
    (req.URL.Path.data.take 6 = "/bewit".data →
      self.ServeHTTP env .fresh req = .ok (self.signUrl env .fresh req) ∧
      (∀ u, Call.ConvertPath u ∉ (self.signUrl env .fresh req).calls) ∧
      (∀ method url, Call.NewRequest method url ∉ (self.signUrl env .fresh req).calls) ∧
      (∀ q, Call.Do q ∉ (self.signUrl env .fresh req).calls)) ∧
    (6 ≤ goLen req.URL.Path → req.URL.Path.data.take 6 ≠ "/bewit".data →
      ∃ st, self.ServeHTTP env .fresh req = .ok st ∧
        st.calls.head? = some (.ConvertPath req.URL) ∧
        (∀ creds ttl scopes, Call.CreateTemporaryCredentials creds ttl scopes ∉ st.calls) ∧
        (∀ b, Call.ReadAll b ∉ st.calls) ∧
        (∀ clientId accessToken certificate url,
          Call.Bewit clientId accessToken certificate url ∉ st.calls) ∧
        (∀ msg, Call.fmtPrintf msg ∉ st.calls)) := by
  constructor
  · intro hhead
    have hslice := goSlice_of_len _ (goLen_of_take _ hhead)
    rw [(take_bytes_bewit _).mpr hhead] at hslice
    refine ⟨by simp only [Routes.ServeHTTP, hslice, if_true],
      fun u => signUrl_calls_no_ConvertPath env self _ req u,
      fun m u => signUrl_calls_no_NewRequest env self _ req m u,
      fun q => signUrl_calls_no_Do env self _ req q⟩
  · intro hlen hhead
    have hslice := goSlice_of_len _ hlen
    have hne : (goBytes req.URL.Path).take 6 ≠ goBytes "/bewit" :=
      fun h => hhead ((take_bytes_bewit _).mp h)
    simp only [Routes.ServeHTTP, hslice, hne, if_false]
    repeat' split
    all_goals
      refine ⟨_, rfl, rfl, ?_, ?_, ?_, ?_⟩
      all_goals
        intros
        simp

/-- Instance of C7: `POST /bewit` is handled by `signUrl`, `GET /queue/task/ABC`
starts with a registry lookup. -/
theorem C7_bewit_branch_witness :
    permanentRoutes.ServeHTTP sampleEnv .fresh
        (sampleRequest "POST" "/bewit" [] "https://queue.example/v1/task/ABC") =
      .ok (permanentRoutes.signUrl sampleEnv .fresh
        (sampleRequest "POST" "/bewit" [] "https://queue.example/v1/task/ABC")) ∧
    ∃ st,
      permanentRoutes.ServeHTTP sampleEnv .fresh (sampleRequest "GET" "/queue/task/ABC" [] "")
        = .ok st ∧
      st.calls.head? = some (.ConvertPath (sampleRequest "GET" "/queue/task/ABC" [] "").URL) :=
  ⟨((C7_bewit_branch sampleEnv permanentRoutes
      (sampleRequest "POST" "/bewit" [] "https://queue.example/v1/task/ABC")).1 (by decide)).1,
   match (C7_bewit_branch sampleEnv permanentRoutes
      (sampleRequest "GET" "/queue/task/ABC" [] "")).2 (by decide) (by decide) with
   | ⟨st, hrun, hhead, _⟩ => ⟨st, hrun, hhead⟩⟩

/-- C7 as stated fails: the path "/bewitched/v1/x" is not the literal "/bewit",
yet it is handled by `signUrl` and never resolved through the registry; and the
path "/ping", also not "/bewit", is not resolved through the registry either. -/
theorem C7_counterexample :
    ("/bewitched/v1/x" ≠ "/bewit") ∧
    (∃ st,
      permanentRoutes.ServeHTTP sampleEnv .fresh
        (sampleRequest "POST" "/bewitched/v1/x" [] "https://queue.example/v1/task/ABC")
        = .ok st ∧
      st = permanentRoutes.signUrl sampleEnv .fresh
        (sampleRequest "POST" "/bewitched/v1/x" [] "https://queue.example/v1/task/ABC") ∧
      st.res.status = some 303 ∧
      st.calls = [.CreateTemporaryCredentials ⟨"proxy", "secret", ""⟩ 3600000000000
                    ["queue:get-artifact:*"],
                  .ReadAll ⟨"https://queue.example/v1/task/ABC", none⟩,
                  .Bewit "proxy" "temp-secret" "cert:queue:get-artifact:*"
                    "https://queue.example/v1/task/ABC"]) ∧
    permanentRoutes.ServeHTTP sampleEnv .fresh (sampleRequest "GET" "/ping" [] "")
      = .error "runtime error: slice bounds out of range" :=
  ⟨by decide, ⟨_, rfl, rfl, by decide, by decide⟩, rfl⟩
/-- C8: when the path of a request resolves to `target` and `http.NewRequest`
accepts the inbound method and the text of `target`, then, if signing succeeds
with value `auth`, exactly one outbound request is issued: it was built by
`NewRequest` from the inbound method and the text of `target`, it has the
inbound method and body, and its Authorization header is the single value
`auth`, the result of `AuthorizationDelegate` for the proxy's own ClientId,
AccessToken, Certificate and Scopes, whatever Authorization header the caller
sent; if signing fails, the response has status 500 and no upstream call is
issued. -/
theorem C8_outbound_request (env : Env) (self : Routes) (req : Request) (head : List Nat)
    (target built : URL) (hslice : goSlice req.URL.Path 0 6 = some head)
    (hne : head ≠ goBytes "/bewit") (hconv : env.ConvertPath req.URL = .ok target)
    (hnew : env.NewRequest req.Method target.String = .ok built) :
    (∀ auth,
      env.AuthorizationDelegate self.ClientId self.AccessToken self.Certificate self.Scopes
        ⟨req.Method, built, rangeSet skipRequestKey req.Header [], req.Body⟩ = .ok auth →
      ∃ st q, self.ServeHTTP env .fresh req = .ok st ∧ issued st.calls = [q] ∧
        Call.NewRequest req.Method target.String ∈ st.calls ∧
        q.Method = req.Method ∧ q.Body = req.Body ∧ q.URL = built ∧
        q.Header.Get "Authorization" = auth ∧
        q.Header.index "Authorization" = some [auth]) ∧
    (∀ e,
      env.AuthorizationDelegate self.ClientId self.AccessToken self.Certificate self.Scopes
        ⟨req.Method, built, rangeSet skipRequestKey req.Header [], req.Body⟩ = .error e →
      ∃ st, self.ServeHTTP env .fresh req = .ok st ∧ st.res.status = some 500 ∧
        issued st.calls = [] ∧ ∀ q, Call.Do q ∉ st.calls) := by
  have hA : CanonicalMIMEHeaderKey "Authorization" = "Authorization" := by decide
  constructor
  · intro auth hauth
    have hidx : ((rangeSet skipRequestKey req.Header []).Set "Authorization" auth).index
        "Authorization" = some [auth] := by
      rw [index_Set, hA, if_pos rfl]
    simp only [Routes.ServeHTTP, hslice, hne, if_false, hconv, hnew, hauth]
    repeat' split
    all_goals
      refine ⟨_, _, rfl, rfl, by simp, rfl, rfl, rfl, ?_, hidx⟩
      exact Get_Set_same _ _ _
  · intro e hauth
    simp only [Routes.ServeHTTP, hslice, hne, if_false, hconv, hnew, hauth]
    refine ⟨_, rfl, rfl, rfl, ?_⟩
    intro q
    simp

/-- Instance of C8 (scenario A of the specification): `GET /queue/task/ABC` with
a caller-supplied Authorization header goes out as a `GET` to
`https://queue.example/v1/task/ABC` signed by the proxy; without an access
token the sample signer fails and the answer is 500. -/
theorem C8_outbound_request_witness :
    (∃ st q,
      permanentRoutes.ServeHTTP sampleEnv .fresh
        (sampleRequest "GET" "/queue/task/ABC" [("Authorization", ["Bearer caller"])] "")
        = .ok st ∧
      issued st.calls = [q] ∧ q.Method = "GET" ∧
      q.URL.String = "https://queue.example/v1/task/ABC" ∧
      q.Header.index "Authorization" = some ["Hawk id=proxy"]) ∧
    (∃ st,
      tokenlessRoutes.ServeHTTP sampleEnv .fresh (sampleRequest "GET" "/queue/task/ABC" [] "")
        = .ok st ∧
      st.res.status = some 500 ∧ issued st.calls = []) :=
  ⟨match (C8_outbound_request sampleEnv permanentRoutes
      (sampleRequest "GET" "/queue/task/ABC" [("Authorization", ["Bearer caller"])] "")
      (goBytes "/queue") ⟨"/v1/task/ABC", "https://queue.example/v1/task/ABC"⟩
      ⟨"/v1/task/ABC", "https://queue.example/v1/task/ABC"⟩
      (by decide) (by decide) rfl rfl).1 "Hawk id=proxy" rfl with
    | ⟨st, q, hrun, hq, _, hm, _, hu, _, hidx⟩ =>
      ⟨st, q, hrun, hq, hm, congrArg URL.String hu, hidx⟩,
   match (C8_outbound_request sampleEnv tokenlessRoutes
      (sampleRequest "GET" "/queue/task/ABC" [] "")
      (goBytes "/queue") ⟨"/v1/task/ABC", "https://queue.example/v1/task/ABC"⟩
      ⟨"/v1/task/ABC", "https://queue.example/v1/task/ABC"⟩
      (by decide) (by decide) rfl rfl).2 "no access token" rfl with
    | ⟨st, hrun, hstatus, hnone, _⟩ => ⟨st, hrun, hstatus, hnone⟩⟩

/-- C9 at the failing input: the backend sends two Set-Cookie values and the
relayed response carries only the first of them. -/
theorem C9_second_value_dropped :
    ∃ st q resp,
      permanentRoutes.ServeHTTP sampleEnv .fresh (sampleRequest "GET" "/queue/task/ABC" [] "")
        = .ok st ∧
      Call.Do q ∈ st.calls ∧ sampleEnv.Do q = .ok resp ∧
      resp.Header.index "Set-Cookie" = some ["a=1", "b=2"] ∧
      st.res.sentHeader.index "Set-Cookie" = some ["a=1"] :=
  ⟨_, ⟨"GET", ⟨"/v1/task/ABC", "https://queue.example/v1/task/ABC"⟩,
      [("Authorization", ["Hawk id=proxy"])], ⟨"", none⟩⟩, _, rfl, by decide, rfl,
    by decide, by decide⟩

/-- C10 at the failing inputs: for the paths "", "/" and "/ping" the slice
`req.URL.Path[0:6]` is out of range and `ServeHTTP` panics, whatever the proxy,
the collaborators and the rest of the request. -/
theorem C10_short_path_panics (env : Env) (self : Routes) (res : ResponseWriter)
    (method text : String) (h : Header) (b : Body) :
    self.ServeHTTP env res ⟨method, ⟨"", text⟩, h, b⟩
      = .error "runtime error: slice bounds out of range" ∧
    self.ServeHTTP env res ⟨method, ⟨"/", text⟩, h, b⟩
      = .error "runtime error: slice bounds out of range" ∧
    self.ServeHTTP env res ⟨method, ⟨"/ping", text⟩, h, b⟩
      = .error "runtime error: slice bounds out of range" :=
  ⟨rfl, rfl, rfl⟩
/-! ## Further properties of the handlers -/

theorem signUrl_status (env : Env) (self : Routes) (req : Request) :
    (self.signUrl env .fresh req).res.status = some 303 ∨
    (self.signUrl env .fresh req).res.status = some 403 ∨
    (self.signUrl env .fresh req).res.status = some 500 := by
  simp only [Routes.signUrl]
  repeat' split
  all_goals simp [ResponseWriter.status, ResponseWriter.Write, ResponseWriter.writeStatus,
    ResponseWriter.fresh]

/-- X2: for a path of at least six bytes `ServeHTTP` returns, and either a
status code was written (303, 403, 404 or 500 of its own, or the status code of
the backend response it relays) or the backend answered with a status code
outside 100 to 999 and `WriteHeader` panicked with nothing written. -/
theorem ServeHTTP_status_written (env : Env) (self : Routes) (req : Request)
    (hlen : 6 ≤ goLen req.URL.Path) :
    ∃ st, self.ServeHTTP env .fresh req = .ok st ∧
      ((∃ code, st.res.status = some code ∧
        (code = 303 ∨ code = 403 ∨ code = 404 ∨ code = 500 ∨
          ∃ q resp, Call.Do q ∈ st.calls ∧ env.Do q = .ok resp ∧ code = resp.StatusCode)) ∨
       (∃ q resp, Call.Do q ∈ st.calls ∧ env.Do q = .ok resp ∧
          checkWriteHeaderCode resp.StatusCode = false ∧ st.res.status = none ∧
          st.panic = some ("invalid WriteHeader code " ++ toString resp.StatusCode))) := by
  have hslice := goSlice_of_len _ hlen
  simp only [Routes.ServeHTTP, hslice]
  split
  · rcases signUrl_status env self req with h | h | h
    · exact ⟨_, rfl, Or.inl ⟨303, h, Or.inl rfl⟩⟩
    · exact ⟨_, rfl, Or.inl ⟨403, h, Or.inr (Or.inl rfl)⟩⟩
    · exact ⟨_, rfl, Or.inl ⟨500, h, Or.inr (Or.inr (Or.inr (Or.inl rfl)))⟩⟩
  · split
    · exact ⟨_, rfl, Or.inl ⟨404, rfl, Or.inr (Or.inr (Or.inl rfl))⟩⟩
    · split
      · exact ⟨_, rfl, Or.inl ⟨500, rfl, Or.inr (Or.inr (Or.inr (Or.inl rfl)))⟩⟩
      · split
        · exact ⟨_, rfl, Or.inl ⟨500, rfl, Or.inr (Or.inr (Or.inr (Or.inl rfl)))⟩⟩
        · split
          · exact ⟨_, rfl, Or.inl ⟨500, rfl, Or.inr (Or.inr (Or.inr (Or.inl rfl)))⟩⟩
          · rename_i resp hdo
            by_cases hc : checkWriteHeaderCode resp.StatusCode = true
            · simp only [WriteHeader_of_valid _ _ hc]
              exact ⟨_, rfl, Or.inl ⟨resp.StatusCode, rfl,
                Or.inr (Or.inr (Or.inr (Or.inr ⟨_, resp, by simp, hdo, rfl⟩)))⟩⟩
            · have hc2 : checkWriteHeaderCode resp.StatusCode = false := by simpa using hc
              simp only [WriteHeader_fresh_of_invalid _ _ hc2]
              exact ⟨_, rfl, Or.inr ⟨_, resp, by simp, hdo, hc2, rfl, rfl⟩⟩

/-- Instance of X2: `GET /queue/down` reaches a backend that refuses the
connection and is answered with status 500. -/
theorem ServeHTTP_status_written_witness :
    ∃ st,
      permanentRoutes.ServeHTTP sampleEnv .fresh (sampleRequest "GET" "/queue/down" [] "")
        = .ok st ∧
      st.res.status = some 500 :=
  match ServeHTTP_status_written sampleEnv permanentRoutes
      (sampleRequest "GET" "/queue/down" [] "") (by decide) with
  | ⟨st, hrun, _⟩ => ⟨st, hrun, by cases hrun; decide⟩

/-- X3: when the upstream call returns a response with a status code from 100
to 999, the body relayed to the caller is the body of the backend response. -/
theorem ServeHTTP_relays_body (env : Env) (self : Routes) (req : Request) (st : St)
    (q : Request) (resp : Response) (hrun : self.ServeHTTP env .fresh req = .ok st)
    (hq : Call.Do q ∈ st.calls) (hresp : env.Do q = .ok resp)
    (hcode : 100 ≤ resp.StatusCode ∧ resp.StatusCode ≤ 999) :
    st.res.body = resp.Body.data := by
  obtain ⟨head, target, u, auth, hslice, hne, hconv, hnew, hauth, hqeq⟩ :=
    ServeHTTP_Do_inv env self .fresh req st q hrun hq
  subst hqeq
  have hst := ServeHTTP_relayed env self .fresh req head target u auth resp hslice hne hconv
    hnew hauth hresp ((checkWriteHeaderCode_iff _).mpr hcode)
  rw [hrun] at hst
  cases hst
  simp [ResponseWriter.Write, ResponseWriter.writeStatus, ResponseWriter.fresh]

/-- Instance of X3: the body "ok" of the sample backend reaches the caller. -/
theorem ServeHTTP_relays_body_witness :
    ∃ st,
      permanentRoutes.ServeHTTP sampleEnv .fresh (sampleRequest "GET" "/queue/task/ABC" [] "")
        = .ok st ∧
      st.res.body = "ok" :=
  ⟨_, rfl, ServeHTTP_relays_body sampleEnv permanentRoutes
    (sampleRequest "GET" "/queue/task/ABC" [] "") _
    ⟨"GET", ⟨"/v1/task/ABC", "https://queue.example/v1/task/ABC"⟩,
      [("Authorization", ["Hawk id=proxy"])], ⟨"", none⟩⟩
    ⟨201, [("Content-Type", ["application/json"]), ("Set-Cookie", ["a=1", "b=2"]),
           ("X-Taskcluster-Endpoint", ["https://elsewhere.example"])], ⟨"ok", none⟩⟩
    rfl (by decide) rfl (by decide)⟩

/-- X1: the handler panics exactly on the paths shorter than six bytes. -/
theorem ServeHTTP_panics_iff (env : Env) (self : Routes) (res : ResponseWriter)
    (req : Request) :
    self.ServeHTTP env res req = .error "runtime error: slice bounds out of range"
      ↔ goLen req.URL.Path < 6 := by
  constructor
  · intro h
    by_contra hlen
    have hslice := goSlice_of_len req.URL.Path (by omega)
    simp only [Routes.ServeHTTP, hslice] at h
    repeat' split at h
    all_goals cases h
  · intro hlen
    have hslice : goSlice req.URL.Path 0 6 = none := by
      simp [goSlice]
      omega
    simp only [Routes.ServeHTTP, hslice]


end TaskclusterProxy
